import Mathlib

/-!
Shallow embedding of the concert aggregation engine of the
concert-critic app, together with its two provider clients
(Ticketmaster = live event provider, Setlist.fm = historical archive
provider) and the persisted catalog store query.

Sources embedded:
- `src/server/ticketmasterService.ts`:
  * `TicketmasterService.searchEvents` / `getEvent` (lines 158-226),
  * `PostgresStorage.getConcerts` (lines 660-718),
  * `PostgresStorage.searchTicketmasterEvents` (lines 1305-1313),
  * `PostgresStorage.searchSetlistFmEvents` (lines 1327-1335),
  * `PostgresStorage.getConcertsWithHistorical` (lines 1422-1537).
- `src/unnamed/part_000` (Setlist.fm service):
  * `SetlistFmService.searchSetlists` (lines 118-166),
  * `SetlistFmService.convertDateFormat` (lines 291-299),
  * `SetlistFmService.extractSetlist` (lines 304-319),
  * `SetlistFmService.transformSetlist` (lines 324-376).

Machine integers do not occur on the embedded paths; JavaScript numbers
used here are array lengths, page offsets and 1-5 ratings, modelled as
`Nat` (and exact `ℚ` for SQL `avg`).  JavaScript string truthiness
(`if (options.search)`) is modelled explicitly by `truthy` /
`orNat`.  Fallible code is modelled with `Except`/`Option`; a JS
`try`/`catch` becomes a total function over the `Except` result of the
embedded `try` body.
-/

/-! ### Strings: case-insensitive substring matching

`a.toLowerCase().includes(b.toLowerCase())` in the source, and the SQL
`ilike '%b%'` conditions produced by drizzle, are both "case-insensitive
substring" tests; both are embedded as `containsCI`.  `listStarts` and
`listHasSub` implement JavaScript `String.prototype.includes` on char
lists. -/

def listStarts : List Char → List Char → Bool
  | _, [] => true
  | [], _ :: _ => false
  | h :: hs, n :: ns => h = n && listStarts hs ns

def listHasSub : List Char → List Char → Bool
  | [], needle => needle.isEmpty
  | h :: t, needle => listStarts (h :: t) needle || listHasSub t needle

/-- Case-fold a string character-wise (the char-list form of
`String.toLower`, kept as a `List.map` so that proofs and concrete
evaluation work on plain list recursion). -/
def lowerStr (s : String) : List Char :=
  s.toList.map Char.toLower

def containsCI (hay needle : String) : Bool :=
  listHasSub (lowerStr hay) (lowerStr needle)

/-! ### SQL ILIKE with wildcards

The store's WHERE conditions are built by drizzle as
`col ILIKE '%' || search || '%'` with the raw, unescaped search string,
so `%` (any sequence) and `_` (any one character) inside the search act
as SQL wildcards there, while the engine's post-merge `.includes`
filter treats them literally.  The two predicates therefore differ on
wildcard-bearing searches and must be modelled separately: `ilikeSub`
below is the store's test, `containsCI` above the post-merge one.

A LIKE pattern is parsed into tokens (`parseLikePattern`): `%` and `_`
become wildcards, the escape character `\` makes the next character
literal, and a trailing `\` is an invalid pattern — Postgres raises an
error on it.  The Persisted Catalog Store is specified as always
succeeding, so the embedding keeps `getConcerts` total and models an
invalid pattern as matching nothing; no theorem below depends on that
case (the C2 hypotheses exclude all three special characters).
`toksMatch` matches a token list against a whole text, a `wild` token
trying every suffix; `ilikeMatch` runs both, case-folded by the caller
as ILIKE does. -/

inductive LikeTok where
  | lit (c : Char)
  | anyOne
  | wild
deriving DecidableEq

def parseLikePattern : List Char → Option (List LikeTok)
  | [] => some []
  | [c] =>
    if c = '\\' then none
    else if c = '%' then some [LikeTok.wild]
    else if c = '_' then some [LikeTok.anyOne]
    else some [LikeTok.lit c]
  | c :: d :: rest =>
    if c = '\\' then (parseLikePattern rest).map (fun ts => LikeTok.lit d :: ts)
    else if c = '%' then (parseLikePattern (d :: rest)).map (fun ts => LikeTok.wild :: ts)
    else if c = '_' then (parseLikePattern (d :: rest)).map (fun ts => LikeTok.anyOne :: ts)
    else (parseLikePattern (d :: rest)).map (fun ts => LikeTok.lit c :: ts)

/-- All suffixes of a text, longest first. -/
def suffixes : List Char → List (List Char)
  | [] => [[]]
  | c :: t => (c :: t) :: suffixes t

def toksMatch : List LikeTok → List Char → Bool
  | [], t => t.isEmpty
  | .wild :: ps, t => (suffixes t).any (fun t' => toksMatch ps t')
  | .anyOne :: ps, t =>
    match t with
    | [] => false
    | _ :: t' => toksMatch ps t'
  | .lit c :: ps, t =>
    match t with
    | [] => false
    | c' :: t' => c' = c && toksMatch ps t'

def ilikeMatch (t p : List Char) : Bool :=
  match parseLikePattern p with
  | none => false
  | some ts => toksMatch ts t

/-- `ilike(col, '%' + needle + '%')` as issued by `getConcerts`,
case-folded on both sides. -/
def ilikeSub (hay needle : String) : Bool :=
  ilikeMatch (lowerStr hay) ('%' :: (lowerStr needle ++ ['%']))

/-- JS truthiness of an optional string option: `undefined` and `""` are
falsy (`if (options.search)` skips the filter in both cases). -/
def truthy : Option String → Option String
  | some s => if s.isEmpty then none else some s
  | none => none

/-- JS `x || d` for an optional number option: `undefined` and `0` are
falsy and fall back to the default. -/
def orNat (o : Option Nat) (d : Nat) : Nat :=
  match o with
  | some n => if n = 0 then d else n
  | none => d

/-! ### Data model

`Concert` embeds the `concerts` table row (src/shared/schema.ts lines
36-50): `artist/venue/city/date/time/price` are NOT NULL text columns,
`genre/imageUrl/ticketUrl/description` are nullable.  Timestamps are
modelled as `Nat`.

`Review` embeds the five NOT NULL 1-5 rating columns of the `reviews`
table (schema lines 53-69); the other review columns are irrelevant to
the aggregation paths.

`StoreRow` is a store concert together with its attached reviews (the
result of the `leftJoin` + `groupBy` in `getConcerts`). -/

structure Concert where
  id : String
  artist : String
  venue : String
  city : String
  date : String
  time : String
  price : String
  genre : Option String
  imageUrl : Option String
  ticketUrl : Option String
  description : Option String
  createdAt : Nat
  updatedAt : Nat
deriving DecidableEq

structure Review where
  overallRating : Nat
  performanceRating : Nat
  soundRating : Nat
  venueRating : Nat
  valueRating : Nat
deriving DecidableEq

structure StoreRow where
  concert : Concert
  reviews : List Review
deriving DecidableEq

/-- `ConcertWithRating` (src/shared/schema.ts lines 350-356): a concert
plus optional rating aggregates.  A field that is `undefined` on the JS
object is `none` here; a field that is set is `some`.  `isHistorical`
is set by the Setlist.fm transform and absent (falsy `false`)
elsewhere; `setlist` likewise. -/
structure ConcertWithRating where
  id : String
  artist : String
  venue : String
  city : String
  date : String
  time : String
  price : String
  genre : Option String
  imageUrl : Option String
  ticketUrl : Option String
  description : Option String
  createdAt : Nat
  updatedAt : Nat
  averageRating : Option ℚ
  performanceRating : Option ℚ
  soundRating : Option ℚ
  venueRating : Option ℚ
  valueRating : Option ℚ
  reviewCount : Option Nat
  isHistorical : Bool
  setlist : List String
deriving DecidableEq

/-- SQL `avg` of one rating column over the joined review rows. -/
def avgBy (f : Review → Nat) (rs : List Review) : ℚ :=
  ((rs.map f).sum : ℚ) / (rs.length : ℚ)

/-- The row mapping of `getConcerts` (lines 709-717): `avg` is SQL-NULL
exactly when the concert has no joined reviews (the rating columns are
NOT NULL and 1-5, so a non-empty group always yields a truthy numeric
string), hence `row.avgRating ? Number(row.avgRating) : undefined`
is `some` iff the review list is non-empty.  `reviewCount` is always
set (`Number(row.reviewCount)`). -/
def toWithRating (r : StoreRow) : ConcertWithRating :=
  { id := r.concert.id
    artist := r.concert.artist
    venue := r.concert.venue
    city := r.concert.city
    date := r.concert.date
    time := r.concert.time
    price := r.concert.price
    genre := r.concert.genre
    imageUrl := r.concert.imageUrl
    ticketUrl := r.concert.ticketUrl
    description := r.concert.description
    createdAt := r.concert.createdAt
    updatedAt := r.concert.updatedAt
    averageRating := if r.reviews.isEmpty then none else some (avgBy (fun v => v.overallRating) r.reviews)
    performanceRating := if r.reviews.isEmpty then none else some (avgBy (fun v => v.performanceRating) r.reviews)
    soundRating := if r.reviews.isEmpty then none else some (avgBy (fun v => v.soundRating) r.reviews)
    venueRating := if r.reviews.isEmpty then none else some (avgBy (fun v => v.venueRating) r.reviews)
    valueRating := if r.reviews.isEmpty then none else some (avgBy (fun v => v.valueRating) r.reviews)
    reviewCount := some r.reviews.length
    isHistorical := false
    setlist := [] }

/-! ### The persisted catalog store query: `getConcerts` (lines 660-718)

SQL evaluation order: WHERE (the three optional conditions), GROUP BY
(joined review aggregates, per row above), ORDER BY `createdAt` DESC,
OFFSET, LIMIT.  `limit = 20` / `offset = 0` are destructuring defaults:
they apply only when the option is `undefined`, so `limit: 0` really
issues `LIMIT 0`. -/

/-- Insert a row into a list sorted by `createdAt` descending
(`orderBy(desc(concerts.createdAt))`). -/
def insertDesc (c : StoreRow) : List StoreRow → List StoreRow
  | [] => [c]
  | x :: xs => if c.concert.createdAt ≤ x.concert.createdAt then x :: insertDesc c xs else c :: x :: xs

def sortDesc (l : List StoreRow) : List StoreRow :=
  l.foldr insertDesc []

/-- The WHERE conditions of `getConcerts` (lines 686-705): `if (search)`
adds `ilike '%search%'` on artist OR venue OR city, `if (genre)` adds
an exact `eq` on the nullable genre column (SQL `NULL = x` is not
true), and `if (city)` adds `ilike '%city%'` on city.  The `ilike`
patterns carry the raw option value, wildcards included (`ilikeSub`),
unlike the engine's post-merge literal `.includes` filter. -/
def rowMatches (search genre city : Option String) (r : StoreRow) : Bool :=
  (match truthy search with
   | none => true
   | some s => ilikeSub r.concert.artist s || ilikeSub r.concert.venue s || ilikeSub r.concert.city s)
  &&
  (match truthy genre with
   | none => true
   | some g => match r.concert.genre with
     | some cg => cg = g
     | none => false)
  &&
  (match truthy city with
   | none => true
   | some ct => ilikeSub r.concert.city ct)

structure GetOptions where
  search : Option String := none
  genre : Option String := none
  city : Option String := none
  limit : Option Nat := none
  offset : Option Nat := none
deriving DecidableEq

def getConcerts (store : List StoreRow) (o : GetOptions) : List ConcertWithRating :=
  ((((sortDesc (store.filter (rowMatches o.search o.genre o.city))).drop (o.offset.getD 0)).take
      (o.limit.getD 20)).map toWithRating)

/-! ### Provider HTTP boundary

A provider fetch either fails at the network level (`fetch` rejects) or
yields an HTTP response with a status and a body; `body = none` models
a response whose JSON cannot be parsed (`response.json()` throws).
`statusOk` is `response.ok` (status in 200-299).

The thrown values are modelled by `UpstreamError`: `http s` for the
`throw new Error(\x7bstatus\x7d ...)` on a non-ok response, `network`
for a rejected fetch, `malformed` for a `response.json()` failure. -/

inductive UpstreamError where
  | http (status : Nat)
  | network
  | malformed
deriving DecidableEq

inductive FetchResult (β : Type) where
  | fail
  | resp (status : Nat) (body : Option β)
deriving DecidableEq

def statusOk (s : Nat) : Bool :=
  200 ≤ s && s ≤ 299

/-- Response body of the Ticketmaster event search:
`data._embedded?.events` with both optional layers collapsed into one
`Option` (`data._embedded?.events || []` reads it). -/
structure TMBody (α : Type) where
  events : Option (List α)
deriving DecidableEq

/-! ### `TicketmasterService.searchEvents` (lines 158-200)

The `catch` block logs and rethrows (`throw error`), so the function's
observable behaviour is the `try` body itself: an empty consumer key
short-circuits to `[]` before any fetch (the `fr` argument is unused on
that path); any non-ok status — including 404 — throws; an ok status
returns the parsed events. -/
def tmSearchEvents {α : Type} (consumerKey : String) (fr : FetchResult (TMBody α)) :
    Except UpstreamError (List α) :=
  if consumerKey = "" then .ok []
  else
    match fr with
    | .fail => .error .network
    | .resp status body =>
      if statusOk status then
        match body with
        | none => .error .malformed
        | some data => .ok (data.events.getD [])
      else .error (.http status)

/-- `TicketmasterService.getEvent` (lines 205-226): no key check; 404
returns `null`; any other non-ok status throws (the `catch` rethrows). -/
def tmGetEvent {β : Type} (fr : FetchResult β) : Except UpstreamError (Option β) :=
  match fr with
  | .fail => .error .network
  | .resp status body =>
    if statusOk status then
      match body with
      | none => .error .malformed
      | some b => .ok (some b)
    else if status = 404 then .ok none
    else .error (.http status)

/-! ### Setlist.fm service (src/unnamed/part_000) -/

structure SetlistFmCity where
  name : String
  state : Option String
  stateCode : Option String
  countryCode : Option String
deriving DecidableEq

structure SetlistFmVenue where
  id : String
  name : String
  city : SetlistFmCity
deriving DecidableEq

structure SetlistFmArtist where
  mbid : String
  name : String
deriving DecidableEq

structure SetlistFmSong where
  name : String
deriving DecidableEq

structure SetlistFmSet where
  song : List SetlistFmSong
deriving DecidableEq

structure SetlistFmSetlist where
  id : String
  eventDate : String
  lastUpdated : String
  artist : SetlistFmArtist
  venue : SetlistFmVenue
  sets : Option (List SetlistFmSet)
  tourName : Option String
  info : Option String
  url : String
deriving DecidableEq

/-- Response body of the setlist search: `data.setlist` (read as
`data.setlist || []`). -/
structure SfmBody where
  setlist : Option (List SetlistFmSetlist)
deriving DecidableEq

/-- The `try` body of `SetlistFmService.searchSetlists` (lines 118-160):
missing API key short-circuits to `[]`; 404 is "no results"; any other
non-ok status throws; an unparseable body throws. -/
def sfmSearchSetlistsTry (apiKey : String) (fr : FetchResult SfmBody) :
    Except UpstreamError (List SetlistFmSetlist) :=
  if apiKey = "" then .ok []
  else
    match fr with
    | .fail => .error .network
    | .resp status body =>
      if statusOk status then
        match body with
        | none => .error .malformed
        | some data => .ok (data.setlist.getD [])
      else if status = 404 then .ok []
      else .error (.http status)

/-- `SetlistFmService.searchSetlists` (lines 118-166): unlike the
Ticketmaster client, its `catch` swallows every error and returns `[]`
("Return empty array instead of throwing to avoid breaking the combined
search"). -/
def sfmSearchSetlists (apiKey : String) (fr : FetchResult SfmBody) : List SetlistFmSetlist :=
  match sfmSearchSetlistsTry apiKey fr with
  | .ok l => l
  | .error _ => []

/-! ### `SetlistFmService.convertDateFormat` (lines 291-299)

`setlistDate.split('-')` never throws; destructuring
`const [day, month, year] = …` leaves `month` (and possibly `year`)
`undefined` when there are fewer pieces.  The only statement that can
throw inside the `try` is `month.padStart(2, '0')` when `month` is
`undefined`, i.e. when the string contains no `'-'` at all; `year`
being `undefined` does NOT throw — it is interpolated as the string
`"undefined"`.  The `catch` returns the input unchanged.

`splitDash` embeds JavaScript `String.prototype.split('-')` on char
lists; `padStart2` embeds `.padStart(2, '0')`. -/

def splitDash : List Char → List (List Char)
  | [] => [[]]
  | c :: t =>
    if c = '-' then [] :: splitDash t
    else
      match splitDash t with
      | h :: rest => (c :: h) :: rest
      | [] => [[c]]

def padStart2 (s : String) : String :=
  String.mk (List.replicate (2 - s.length) '0') ++ s

/-- The `try` body: `none` means the body threw
(`month.padStart` on `undefined`). -/
def convertDateFormatTry (s : String) : Option String :=
  match splitDash s.toList with
  | [] => none
  | _ :: [] => none
  | d :: m :: rest =>
    some ((match rest with
           | y :: _ => String.mk y
           | [] => "undefined")
          ++ "-" ++ padStart2 (String.mk m) ++ "-" ++ padStart2 (String.mk d))

def convertDateFormat (s : String) : String :=
  (convertDateFormatTry s).getD s

/-- `SetlistFmService.extractSetlist` (lines 304-319): flatten all sets
into song names, dropping falsy (empty) names. -/
def extractSetlist (sl : SetlistFmSetlist) : List String :=
  match sl.sets with
  | none => []
  | some sets => sets.foldl (fun songs st =>
      songs ++ (st.song.filter (fun s => !s.name.isEmpty)).map (fun s => s.name)) []

/-- The transformed provider record shape consumed by the aggregation
engine: both `transformEvent` and `transformSetlist` produce objects of
this shape (plus provider-specific metadata the engine never reads). -/
structure ProviderConcert where
  id : String
  artist : String
  venue : String
  city : String
  date : String
  time : String
  price : String
  genre : Option String
  imageUrl : Option String
  ticketUrl : Option String
  description : Option String
  isHistorical : Bool
  setlist : List String
deriving DecidableEq

/-- `SetlistFmService.transformSetlist` (lines 324-376). -/
def transformSetlist (sl : SetlistFmSetlist) : ProviderConcert :=
  let venue := sl.venue
  let city := venue.city
  let setlistSongs := extractSetlist sl
  let isoDate := convertDateFormat sl.eventDate
  let cityString :=
    (city.name
      ++ (match city.stateCode with
          | some sc => ", " ++ sc
          | none => match city.state with
            | some st => ", " ++ st
            | none => ""))
      ++ (match city.countryCode with
          | some cc => if cc ≠ "US" then ", " ++ cc else ""
          | none => "")
  let description :=
    (sl.artist.name ++ " performed at " ++ venue.name ++ " in " ++ cityString)
      ++ (match sl.tourName with
          | some t => " (" ++ t ++ ")"
          | none => "")
      ++ (if setlistSongs.length > 0 then
            ". Setlist included " ++ toString setlistSongs.length ++ " songs."
          else "")
  { id := "setlistfm_" ++ sl.id
    artist := sl.artist.name
    venue := venue.name
    city := cityString
    date := isoDate
    time := "Historical"
    price := "Historical"
    genre := some "Music"
    imageUrl := none
    ticketUrl := some sl.url
    description := some description
    isHistorical := true
    setlist := setlistSongs }

/-! ### Storage-level provider wrappers

`PostgresStorage.searchTicketmasterEvents` (lines 1305-1313) and
`PostgresStorage.searchSetlistFmEvents` (lines 1327-1335) call the
service, map the transform over the result, and `catch` any error into
`[]`.  The engine-level embedding abstracts a provider call as the
`Except` value of the service call with the transform already applied
(both transforms are total): `.error e` models the service call
throwing, `.ok l` models it yielding the transformed records `l`. -/

def searchTicketmasterEventsS (resp : Except UpstreamError (List ProviderConcert)) :
    List ProviderConcert :=
  match resp with
  | .ok l => l
  | .error _ => []

def searchSetlistFmEventsS (resp : Except UpstreamError (List ProviderConcert)) :
    List ProviderConcert :=
  match resp with
  | .ok l => l
  | .error _ => []

/-! ### The aggregation engine:
`PostgresStorage.getConcertsWithHistorical` (lines 1422-1537) -/

structure QueryOptions where
  search : Option String := none
  genre : Option String := none
  city : Option String := none
  limit : Option Nat := none
  offset : Option Nat := none
  includeTicketmaster : Bool := false
  includeHistorical : Bool := false
  startDate : Option String := none
  endDate : Option String := none
deriving DecidableEq

/-- The per-provider merge loop (lines 1468-1473 and 1500-1505): append
each external record whose id is not yet in the seen-id set, adding the
id to the set.  The JS `Set` is modelled as a list with membership
(`contains`) and insertion (cons). -/
def mergeStep (acc : List ConcertWithRating × List String) (ext : List ConcertWithRating) :
    List ConcertWithRating × List String :=
  ext.foldl
    (fun p e => if p.2.contains e.id then p else (p.1 ++ [e], e.id :: p.2)) acc

/-- The mapping of a transformed provider record into
`ConcertWithRating` (lines 1455-1465 and 1487-1497): `createdAt` and
`updatedAt` are `new Date()` — the wall clock at the time of the call,
passed here explicitly as `now` — the five per-category aggregates are
set to `undefined`, and `reviewCount` is set to `0`. -/
def toExternal (now : Nat) (e : ProviderConcert) : ConcertWithRating :=
  { id := e.id
    artist := e.artist
    venue := e.venue
    city := e.city
    date := e.date
    time := e.time
    price := e.price
    genre := e.genre
    imageUrl := e.imageUrl
    ticketUrl := e.ticketUrl
    description := e.description
    createdAt := now
    updatedAt := now
    averageRating := none
    performanceRating := none
    soundRating := none
    venueRating := none
    valueRating := none
    reviewCount := some 0
    isHistorical := e.isHistorical
    setlist := e.setlist }

/-- Post-merge filtering (lines 1508-1525): re-apply the free-text
search (case-insensitive substring on artist/venue/city) and the genre
filter (case-insensitive substring on the optional genre; a record
without a genre is dropped) over the combined list.  Both `if`s test JS
truthiness. -/
def postFilter (search genre : Option String) (l : List ConcertWithRating) :
    List ConcertWithRating :=
  let f1 := match truthy search with
    | none => l
    | some s => l.filter (fun c =>
        containsCI c.artist s || containsCI c.venue s || containsCI c.city s)
  match truthy genre with
  | none => f1
  | some g => f1.filter (fun c =>
      match c.genre with
      | some cg => containsCI cg g
      | none => false)

/-- Final pagination (lines 1527-1531):
`filteredConcerts.slice(startIndex, startIndex + (options.limit || 50))`
with `startIndex = options.offset || 0`.  Note the `|| 50` (not the
store's destructuring default `20`), under which `limit: 0` falls back
to `50`. -/
def windowSlice (offset limit : Option Nat) (l : List ConcertWithRating) :
    List ConcertWithRating :=
  (l.drop (orNat offset 0)).take (orNat limit 50)

/-- `PostgresStorage.getConcertsWithHistorical` (lines 1422-1537).
The store is queried first with the same options object (`getConcerts`
reads only its `search/genre/city/limit/offset` fields); the seen-id
set is seeded from the store page; each enabled provider's (already
transformed) records are merged in order; then post-merge filtering and
the flat pagination window are applied.  Every step of the embedding is
total, so the surrounding `try`/`catch` (lines 1532-1536, falling back
to `getConcerts`) has no reachable failure path here; provider
failures are already caught inside `searchTicketmasterEventsS` /
`searchSetlistFmEventsS`.

`engineCombined` is the merge stage (lines 1437-1506): the seen-id set
seeded from the store page, then one `mergeStep` per enabled provider,
live first; `getConcertsWithHistorical` wraps it between the store
query and the post-merge filter/window. -/
def engineCombined (db tmext sfmext : List ConcertWithRating) (b1 b2 : Bool) :
    List ConcertWithRating × List String :=
  let acc0 := (db, db.map (fun c => c.id))
  let acc1 := if b1 then mergeStep acc0 tmext else acc0
  if b2 then mergeStep acc1 sfmext else acc1

def getConcertsWithHistorical (store : List StoreRow)
    (tmResp sfmResp : Except UpstreamError (List ProviderConcert))
    (now : Nat) (o : QueryOptions) : List ConcertWithRating :=
  let dbConcerts := getConcerts store ⟨o.search, o.genre, o.city, o.limit, o.offset⟩
  windowSlice o.offset o.limit (postFilter o.search o.genre
    (engineCombined dbConcerts
      ((searchTicketmasterEventsS tmResp).map (toExternal now))
      ((searchSetlistFmEventsS sfmResp).map (toExternal now))
      o.includeTicketmaster o.includeHistorical).1)

/-! ### Concrete sample data used by witnesses and counterexamples -/

def sampleConcertA : Concert :=
  { id := "local-a", artist := "The Midnight", venue := "Fox Theater", city := "Oakland"
    date := "2024-01-01", time := "20:00", price := "$45", genre := some "Rock"
    imageUrl := none, ticketUrl := none, description := none, createdAt := 0, updatedAt := 0 }

def sampleConcertB : Concert :=
  { sampleConcertA with id := "local-b", artist := "Daylight", createdAt := 1, updatedAt := 1 }

def sampleRowA : StoreRow := { concert := sampleConcertA, reviews := [] }

def sampleRowB : StoreRow := { concert := sampleConcertB, reviews := [⟨5, 4, 4, 3, 5⟩] }

def sampleTmConcert : ProviderConcert :=
  { id := "tm_1", artist := "Phoenix", venue := "Bill Graham", city := "San Francisco, CA"
    date := "2024-06-01", time := "TBA", price := "TBA", genre := some "Music"
    imageUrl := none, ticketUrl := none, description := none
    isHistorical := false, setlist := [] }

/-! ### Helper lemmas -/

theorem listStarts_refl : ∀ l : List Char, listStarts l l = true := by
  intro l
  induction l with
  | nil => rfl
  | cons h t ih => simp [listStarts, ih]

theorem listHasSub_refl (l : List Char) : listHasSub l l = true := by
  cases l with
  | nil => rfl
  | cons h t => simp [listHasSub, listStarts_refl]

theorem containsCI_self (s : String) : containsCI s s = true :=
  listHasSub_refl _

/-! The store's ILIKE test and the post-merge literal substring test
coincide exactly on needles free of the three special pattern
characters `%`, `_` and `\`; `ilike_wildcard_divergence` shows they
differ otherwise. -/

theorem parseLikePattern_lit_wild (lit : List Char)
    (hp : '%' ∉ lit) (hu : '_' ∉ lit) (hb : '\\' ∉ lit) :
    parseLikePattern (lit ++ ['%']) = some (lit.map LikeTok.lit ++ [LikeTok.wild]) := by
  induction lit with
  | nil => rfl
  | cons c rest ih =>
    have hc1 : ¬(c = '\\') := fun he => hb (by rw [← he]; exact List.mem_cons_self c rest)
    have hc2 : ¬(c = '%') := fun he => hp (by rw [← he]; exact List.mem_cons_self c rest)
    have hc3 : ¬(c = '_') := fun he => hu (by rw [← he]; exact List.mem_cons_self c rest)
    have ih' := ih (fun hm => hp (List.mem_cons_of_mem c hm))
      (fun hm => hu (List.mem_cons_of_mem c hm))
      (fun hm => hb (List.mem_cons_of_mem c hm))
    cases rest with
    | nil => simp [parseLikePattern, hc1, hc2, hc3]
    | cons r rs =>
      have hstep : parseLikePattern ((c :: r :: rs) ++ ['%'])
          = (parseLikePattern ((r :: rs) ++ ['%'])).map (fun ts => LikeTok.lit c :: ts) := by
        show parseLikePattern (c :: r :: (rs ++ ['%'])) = _
        rw [parseLikePattern, if_neg hc1, if_neg hc2, if_neg hc3]
        rfl
      rw [hstep, ih']
      simp

theorem toksMatch_lit_wild (lit : List Char) :
    ∀ t, toksMatch (lit.map LikeTok.lit ++ [LikeTok.wild]) t = listStarts t lit := by
  induction lit with
  | nil =>
    intro t
    show (suffixes t).any (fun t' => toksMatch [] t') = listStarts t []
    have hany : ∀ u : List Char, (suffixes u).any (fun t' => toksMatch [] t') = true := by
      intro u
      induction u with
      | nil => rfl
      | cons c u' ihu => simp [suffixes, List.any_cons, ihu]
    rw [hany t]
    cases t <;> rfl
  | cons a lit ih =>
    intro t
    cases t with
    | nil => rfl
    | cons c t' =>
      show (decide (c = a) && toksMatch (lit.map LikeTok.lit ++ [LikeTok.wild]) t')
          = (decide (c = a) && listStarts t' lit)
      rw [ih t']

theorem suffixes_any_starts (lit : List Char) :
    ∀ t, (suffixes t).any (fun t' => listStarts t' lit) = listHasSub t lit := by
  intro t
  induction t with
  | nil =>
    show (listStarts [] lit || false) = lit.isEmpty
    cases lit <;> rfl
  | cons c t' ih =>
    show (listStarts (c :: t') lit || (suffixes t').any (fun u => listStarts u lit))
        = listHasSub (c :: t') lit
    rw [ih, listHasSub]

theorem parseLikePattern_full (lit : List Char)
    (hp : '%' ∉ lit) (hu : '_' ∉ lit) (hb : '\\' ∉ lit) :
    parseLikePattern ('%' :: (lit ++ ['%']))
      = some (LikeTok.wild :: (lit.map LikeTok.lit ++ [LikeTok.wild])) := by
  have h := parseLikePattern_lit_wild lit hp hu hb
  cases hl : lit ++ ['%'] with
  | nil => exact absurd hl (by simp)
  | cons x xs =>
    rw [hl] at h
    simp [parseLikePattern, h]

theorem ilikeSub_eq_containsCI (hay needle : String)
    (hp : '%' ∉ lowerStr needle) (hu : '_' ∉ lowerStr needle)
    (hb : '\\' ∉ lowerStr needle) :
    ilikeSub hay needle = containsCI hay needle := by
  unfold ilikeSub ilikeMatch containsCI
  rw [parseLikePattern_full _ hp hu hb]
  show (suffixes (lowerStr hay)).any
      (fun t' => toksMatch ((lowerStr needle).map LikeTok.lit ++ [LikeTok.wild]) t')
    = listHasSub (lowerStr hay) (lowerStr needle)
  rw [show (fun t' => toksMatch ((lowerStr needle).map LikeTok.lit ++ [LikeTok.wild]) t')
      = (fun t' => listStarts t' (lowerStr needle)) from
    funext (toksMatch_lit_wild (lowerStr needle))]
  exact suffixes_any_starts _ _

/-- On a wildcard-bearing search the two tests genuinely differ: the
SQL pattern `%a_c%` matches `"abc"`, the literal `.includes` does not. -/
theorem ilike_wildcard_divergence :
    ilikeSub "abc" "a_c" = true ∧ containsCI "abc" "a_c" = false := by
  exact ⟨by decide, by decide⟩

theorem insertDesc_perm (c : StoreRow) (l : List StoreRow) :
    (insertDesc c l).Perm (c :: l) := by
  induction l with
  | nil => exact List.Perm.refl _
  | cons x xs ih =>
    rw [insertDesc]
    split
    · exact ((ih.cons x).trans (List.Perm.swap c x xs))
    · exact List.Perm.refl _

theorem sortDesc_perm (l : List StoreRow) : (sortDesc l).Perm l := by
  induction l with
  | nil => exact List.Perm.refl _
  | cons x xs ih =>
    have : sortDesc (x :: xs) = insertDesc x (sortDesc xs) := rfl
    rw [this]
    exact (insertDesc_perm x (sortDesc xs)).trans (ih.cons x)

/-- Every record of a store page is the rating-mapped image of a store
row that passed the WHERE conditions. -/
theorem getConcerts_mem {store : List StoreRow} {o : GetOptions} {c : ConcertWithRating}
    (h : c ∈ getConcerts store o) :
    ∃ r, r ∈ store ∧ rowMatches o.search o.genre o.city r = true ∧ c = toWithRating r := by
  unfold getConcerts at h
  rw [List.mem_map] at h
  obtain ⟨r, hr, rfl⟩ := h
  have hr2 : r ∈ sortDesc (store.filter (rowMatches o.search o.genre o.city)) :=
    List.mem_of_mem_drop (List.mem_of_mem_take hr)
  have hr3 : r ∈ store.filter (rowMatches o.search o.genre o.city) :=
    ((sortDesc_perm _).mem_iff).mp hr2
  rw [List.mem_filter] at hr3
  exact ⟨r, hr3.1, hr3.2, rfl⟩

theorem getConcerts_length_le (store : List StoreRow) (o : GetOptions) :
    (getConcerts store o).length ≤ o.limit.getD 20 := by
  unfold getConcerts
  rw [List.length_map]
  exact List.length_take_le _ _

/-! ## Claim C1 -/

/-- C1: the aggregation engine's query never propagates a provider
failure.  A live-provider call that raises an `UpstreamError` is caught
at the storage wrapper, so the query result is exactly the result with
that provider contributing nothing (first conjunct), and symmetrically
for the historical provider (second conjunct); with only the live
provider enabled and its call failing, the output equals the local-only
(both-toggles-off) output (third conjunct), and symmetrically (fourth
conjunct).  No exception escapes `query`: the embedding of the whole
call is a total function into `List ConcertWithRating`, every provider
error being consumed by `searchTicketmasterEventsS` /
`searchSetlistFmEventsS`. -/
theorem query_degrades_to_local_on_upstream_error (store : List StoreRow)
    (tmResp sfmResp : Except UpstreamError (List ProviderConcert))
    (now : Nat) (o : QueryOptions) (e e' : UpstreamError) :
    (getConcertsWithHistorical store (.error e) sfmResp now o
      = getConcertsWithHistorical store (.ok []) sfmResp now o)
    ∧ (getConcertsWithHistorical store tmResp (.error e') now o
      = getConcertsWithHistorical store tmResp (.ok []) now o)
    ∧ (getConcertsWithHistorical store (.error e) sfmResp now
          { o with includeTicketmaster := true, includeHistorical := false }
      = getConcertsWithHistorical store (.error e) sfmResp now
          { o with includeTicketmaster := false, includeHistorical := false })
    ∧ (getConcertsWithHistorical store tmResp (.error e') now
          { o with includeTicketmaster := false, includeHistorical := true }
      = getConcertsWithHistorical store tmResp (.error e') now
          { o with includeTicketmaster := false, includeHistorical := false }) :=
  ⟨rfl, rfl, rfl, rfl⟩

/-! ## Claim C3 -/

/-- C3 (counterexample): with the live provider enabled and returning
one event, `limit = 0` does NOT return the empty list: JavaScript
treats `0` as falsy, so the final window `options.limit || 50` widens
to 50 and the provider record is returned. -/
theorem query_limit_zero_not_always_empty :
    getConcertsWithHistorical [] (.ok [sampleTmConcert]) (.ok []) 0
      ⟨none, none, none, some 0, none, true, false, none, none⟩ ≠ [] := by
  decide

/-- C3 (amended): `limit = 0` returns the empty list (and, the
embedding being total, no error) whenever both provider toggles are
off: the store query issues `LIMIT 0`.  With a provider enabled,
`limit = 0` is falsy and the final window defaults to 50, so provider
records may be returned (see the counterexample). -/
theorem query_limit_zero_local_empty (store : List StoreRow)
    (tmResp sfmResp : Except UpstreamError (List ProviderConcert)) (now : Nat)
    (search genre city : Option String) (offset : Option Nat) (sd ed : Option String) :
    getConcertsWithHistorical store tmResp sfmResp now
      ⟨search, genre, city, some 0, offset, false, false, sd, ed⟩ = [] := by
  have hdb : getConcerts store ⟨search, genre, city, some 0, offset⟩ = [] := by
    unfold getConcerts
    simp
  show windowSlice offset (some 0)
      (postFilter search genre (getConcerts store ⟨search, genre, city, some 0, offset⟩)) = []
  rw [hdb]
  have hpf : postFilter search genre ([] : List ConcertWithRating) = [] := by
    unfold postFilter
    cases truthy search <;> cases truthy genre <;> simp
  rw [hpf]
  unfold windowSlice
  simp

/-- The post-merge filters keep every record of the store page,
provided the search string (when set and non-empty) carries none of the
SQL pattern characters `%`, `_`, `\`: the store's ILIKE search then
coincides with the post-merge case-insensitive literal substring test
(`ilikeSub_eq_containsCI`), and an exact genre match trivially
satisfies the post-merge substring genre match.  Without that proviso
the two filters genuinely differ (`ilike_wildcard_divergence`). -/
theorem postFilter_getConcerts (store : List StoreRow) (g : GetOptions)
    (hw : ∀ s, truthy g.search = some s →
      '%' ∉ lowerStr s ∧ '_' ∉ lowerStr s ∧ '\\' ∉ lowerStr s) :
    postFilter g.search g.genre (getConcerts store g) = getConcerts store g := by
  unfold postFilter
  have hsearch : (match truthy g.search with
      | none => getConcerts store g
      | some s => (getConcerts store g).filter (fun c =>
          containsCI c.artist s || containsCI c.venue s || containsCI c.city s))
      = getConcerts store g := by
    cases hs : truthy g.search with
    | none => rfl
    | some s =>
      obtain ⟨hp, hu, hb⟩ := hw s hs
      apply List.filter_eq_self.mpr
      intro c hc
      obtain ⟨r, _, hm, rfl⟩ := getConcerts_mem hc
      rw [rowMatches, hs] at hm
      simp only [Bool.and_eq_true] at hm
      have hm1 := hm.1.1
      rw [ilikeSub_eq_containsCI r.concert.artist s hp hu hb,
        ilikeSub_eq_containsCI r.concert.venue s hp hu hb,
        ilikeSub_eq_containsCI r.concert.city s hp hu hb] at hm1
      simpa [toWithRating] using hm1
  rw [hsearch]
  cases hg : truthy g.genre with
  | none => rfl
  | some gg =>
    apply List.filter_eq_self.mpr
    intro c hc
    obtain ⟨r, _, hm, rfl⟩ := getConcerts_mem hc
    rw [rowMatches, hg] at hm
    simp only [Bool.and_eq_true] at hm
    have hm2 := hm.1.2
    cases hcg : r.concert.genre with
    | none => rw [hcg] at hm2; simp at hm2
    | some cg =>
      rw [hcg] at hm2
      simp at hm2
      subst hm2
      simp [toWithRating, hcg, containsCI_self]

/-- When the requested offset is zero, the engine's flat pagination
window keeps the whole store page: the page length is bounded by the
store LIMIT, which never exceeds the engine's `options.limit || 50`
window. -/
theorem windowSlice_getConcerts (store : List StoreRow) (g : GetOptions)
    (h : g.offset.getD 0 = 0) :
    windowSlice g.offset g.limit (getConcerts store g) = getConcerts store g := by
  unfold windowSlice
  have h0 : orNat g.offset 0 = 0 := by
    cases ho : g.offset with
    | none => rfl
    | some n =>
      rw [ho] at h
      simp at h
      subst h
      rfl
  rw [h0, List.drop_zero]
  have hlen := getConcerts_length_le store g
  cases hl : g.limit with
  | none =>
    apply List.take_of_length_le
    rw [hl] at hlen
    simp [orNat]
    simp at hlen
    omega
  | some n =>
    cases n with
    | zero =>
      have hnil : getConcerts store g = [] := by
        unfold getConcerts
        rw [hl]
        simp
      rw [hnil]
      simp
    | succ k =>
      apply List.take_of_length_le
      rw [hl] at hlen
      simp [orNat] at hlen ⊢
      omega

/-! ## Claim C2 -/

/-- C2 (counterexample): with both toggles off but `offset = 1` and
`limit = 1`, the query re-applies the pagination window to the store
page that was already paginated by the SQL OFFSET/LIMIT, and returns
`[]` instead of the store's one-element page. -/
theorem query_toggles_off_not_always_store_page :
    getConcertsWithHistorical [sampleRowA, sampleRowB] (.ok []) (.ok []) 0
        ⟨none, none, none, some 1, some 1, false, false, none, none⟩
      ≠ getConcerts [sampleRowA, sampleRowB] ⟨none, none, none, some 1, some 1⟩ := by
  decide

/-- C2 (amended): with both provider toggles off, `offset = 0` (set or
defaulted), and a search string that — when set and non-empty —
contains none of the SQL pattern characters `%`, `_`, `\`, the query
returns exactly the store's filtered query result, unchanged: the
post-merge filters keep every store-page record and the flat window
keeps the whole page.  For `offset ≥ 1` the claim fails (see the
counterexample), because the engine applies the window
`[offset, offset + (limit || 50))` a second time to the already
OFFSET/LIMIT-paginated store page; and for a wildcard-bearing search
the store's unescaped `ILIKE '%search%'` admits rows the post-merge
literal `.includes` filter then drops (`ilike_wildcard_divergence`). -/
theorem query_toggles_off_is_store_page (store : List StoreRow)
    (tmResp sfmResp : Except UpstreamError (List ProviderConcert)) (now : Nat)
    (search genre city : Option String) (limit offset : Option Nat)
    (sd ed : Option String) (h : offset.getD 0 = 0)
    (hw : ∀ s, truthy search = some s →
      '%' ∉ lowerStr s ∧ '_' ∉ lowerStr s ∧ '\\' ∉ lowerStr s) :
    getConcertsWithHistorical store tmResp sfmResp now
        ⟨search, genre, city, limit, offset, false, false, sd, ed⟩
      = getConcerts store ⟨search, genre, city, limit, offset⟩ := by
  show windowSlice offset limit
      (postFilter search genre (getConcerts store ⟨search, genre, city, limit, offset⟩)) = _
  rw [postFilter_getConcerts store ⟨search, genre, city, limit, offset⟩ hw]
  exact windowSlice_getConcerts store ⟨search, genre, city, limit, offset⟩ h

/-- Witness for the amended C2 at a concrete input with a live,
wildcard-free search filter. -/
theorem query_toggles_off_is_store_page_witness :
    (none : Option Nat).getD 0 = 0 ∧
    getConcertsWithHistorical [sampleRowA, sampleRowB] (.ok []) (.ok []) 5
        ⟨some "mid", none, none, none, none, false, false, none, none⟩
      = getConcerts [sampleRowA, sampleRowB] ⟨some "mid", none, none, none, none⟩ :=
  ⟨rfl, query_toggles_off_is_store_page [sampleRowA, sampleRowB] (.ok []) (.ok []) 5
    (some "mid") none none none none none none rfl
    (fun s h => by
      rw [show truthy (some "mid") = some "mid" from rfl] at h
      cases h
      exact ⟨by decide, by decide, by decide⟩)⟩

/-- The store page has pairwise distinct ids whenever the store does
(`concerts.id` is the table's primary key): the page is obtained from
the store rows by filtering, an order-permuting sort, OFFSET/LIMIT and
a per-row mapping that keeps the id. -/
theorem getConcerts_ids_nodup (store : List StoreRow) (o : GetOptions)
    (h : (store.map (fun r => r.concert.id)).Nodup) :
    ((getConcerts store o).map (fun c => c.id)).Nodup := by
  unfold getConcerts
  rw [List.map_map]
  have hcomp : ((fun c : ConcertWithRating => c.id) ∘ toWithRating)
      = fun r : StoreRow => r.concert.id := rfl
  rw [hcomp]
  have h1 : ((store.filter (rowMatches o.search o.genre o.city)).map
      (fun r => r.concert.id)).Nodup :=
    List.Nodup.sublist ((List.filter_sublist store).map _) h
  have h2 : ((sortDesc (store.filter (rowMatches o.search o.genre o.city))).map
      (fun r => r.concert.id)).Nodup :=
    (((sortDesc_perm _).map _).nodup_iff).mpr h1
  exact List.Nodup.sublist
    (((List.take_sublist _ _).trans (List.drop_sublist _ _)).map _) h2

/-- Invariant of the merge loop: if the accumulated list has pairwise
distinct ids, all of them in the seen-id set, then the loop preserves
both facts — each external record is appended only when its id is not
yet in the set, and its id is added. -/
theorem mergeStep_nodup (ext : List ConcertWithRating)
    (p : List ConcertWithRating × List String)
    (h1 : (p.1.map (fun c => c.id)).Nodup)
    (h2 : ∀ i ∈ p.1.map (fun c => c.id), i ∈ p.2) :
    ((mergeStep p ext).1.map (fun c => c.id)).Nodup ∧
    (∀ i ∈ (mergeStep p ext).1.map (fun c => c.id), i ∈ (mergeStep p ext).2) := by
  induction ext generalizing p with
  | nil => exact ⟨h1, h2⟩
  | cons e rest ih =>
    have hstep : mergeStep p (e :: rest)
        = mergeStep (if p.2.contains e.id then p else (p.1 ++ [e], e.id :: p.2)) rest := rfl
    rw [hstep]
    by_cases hc : p.2.contains e.id
    · rw [if_pos hc]
      exact ih p h1 h2
    · rw [if_neg hc]
      have hnotin : e.id ∉ p.2 := by simpa using hc
      apply ih
      · rw [List.map_append, List.nodup_append]
        refine ⟨h1, List.nodup_singleton _, ?_⟩
        intro i hi hie
        simp only [List.map_cons, List.map_nil, List.mem_singleton] at hie
        subst hie
        exact hnotin (h2 _ hi)
      · intro i hi
        rw [List.map_append, List.mem_append] at hi
        cases hi with
        | inl hi => exact List.mem_cons_of_mem _ (h2 _ hi)
        | inr hi =>
          rw [List.map_singleton, List.mem_singleton] at hi
          subst hi
          exact List.mem_cons_self _ _

/-- Every record produced by the merge loop comes from the accumulated
list or from the external list. -/
theorem mergeStep_mem (ext : List ConcertWithRating)
    (p : List ConcertWithRating × List String) (x : ConcertWithRating)
    (h : x ∈ (mergeStep p ext).1) : x ∈ p.1 ∨ x ∈ ext := by
  induction ext generalizing p with
  | nil => exact Or.inl h
  | cons e rest ih =>
    have hstep : mergeStep p (e :: rest)
        = mergeStep (if p.2.contains e.id then p else (p.1 ++ [e], e.id :: p.2)) rest := rfl
    rw [hstep] at h
    by_cases hc : p.2.contains e.id
    · rw [if_pos hc] at h
      cases ih p h with
      | inl hx => exact Or.inl hx
      | inr hx => exact Or.inr (List.mem_cons_of_mem _ hx)
    · rw [if_neg hc] at h
      cases ih _ h with
      | inl hx =>
        rw [List.mem_append] at hx
        cases hx with
        | inl hx => exact Or.inl hx
        | inr hx =>
          rw [List.mem_singleton] at hx
          subst hx
          exact Or.inr (List.mem_cons_self _ _)
      | inr hx => exact Or.inr (List.mem_cons_of_mem _ hx)

theorem postFilter_sublist (s g : Option String) (l : List ConcertWithRating) :
    (postFilter s g l).Sublist l := by
  unfold postFilter
  cases truthy s <;> cases truthy g <;>
    first
      | exact List.Sublist.refl _
      | exact List.filter_sublist _
      | exact (List.filter_sublist _).trans (List.filter_sublist _)

theorem windowSlice_sublist (off lim : Option Nat) (l : List ConcertWithRating) :
    (windowSlice off lim l).Sublist l :=
  (List.take_sublist _ _).trans (List.drop_sublist _ _)

/-- The merged (pre-filter, pre-window) list of the engine keeps its
ids pairwise distinct, for any combination of toggles. -/
theorem engine_combined_nodup (db tmext sfmext : List ConcertWithRating) (b1 b2 : Bool)
    (hdb : (db.map (fun c => c.id)).Nodup) :
    ((engineCombined db tmext sfmext b1 b2).1.map (fun c => c.id)).Nodup := by
  unfold engineCombined
  have P0 : ((db, db.map (fun c : ConcertWithRating => c.id)).1.map (fun c => c.id)).Nodup ∧
      (∀ i ∈ (db, db.map (fun c : ConcertWithRating => c.id)).1.map (fun c => c.id),
        i ∈ (db, db.map (fun c : ConcertWithRating => c.id)).2) :=
    ⟨hdb, fun _ hi => hi⟩
  by_cases h1 : b1 <;> by_cases h2 : b2 <;> simp only [h1, h2, if_true, if_false, ite_true, ite_false]
  · exact (mergeStep_nodup sfmext _ (mergeStep_nodup tmext _ P0.1 P0.2).1
      (mergeStep_nodup tmext _ P0.1 P0.2).2).1
  · exact (mergeStep_nodup tmext _ P0.1 P0.2).1
  · exact (mergeStep_nodup sfmext _ P0.1 P0.2).1
  · exact hdb

/-! ## Claim C4 -/

/-- C4: no two entries of a query result share an id, for every input
and all provider responses (even responses containing duplicate ids),
assuming the store rows have pairwise distinct ids (`concerts.id` is
the primary key).  The merge seeds the seen-id set from the store page
(whose records are kept untouched, so local records take precedence)
and appends an external record only when its id is not in the set. -/
theorem query_result_ids_nodup (store : List StoreRow)
    (tmResp sfmResp : Except UpstreamError (List ProviderConcert))
    (now : Nat) (o : QueryOptions)
    (h : (store.map (fun r => r.concert.id)).Nodup) :
    ((getConcertsWithHistorical store tmResp sfmResp now o).map (fun c => c.id)).Nodup := by
  have hdb := getConcerts_ids_nodup store ⟨o.search, o.genre, o.city, o.limit, o.offset⟩ h
  have hcomb := engine_combined_nodup
    (getConcerts store ⟨o.search, o.genre, o.city, o.limit, o.offset⟩)
    ((searchTicketmasterEventsS tmResp).map (toExternal now))
    ((searchSetlistFmEventsS sfmResp).map (toExternal now))
    o.includeTicketmaster o.includeHistorical hdb
  have hsub : (getConcertsWithHistorical store tmResp sfmResp now o).Sublist
      ((engineCombined (getConcerts store ⟨o.search, o.genre, o.city, o.limit, o.offset⟩)
        ((searchTicketmasterEventsS tmResp).map (toExternal now))
        ((searchSetlistFmEventsS sfmResp).map (toExternal now))
        o.includeTicketmaster o.includeHistorical).1) :=
    (windowSlice_sublist _ _ _).trans (postFilter_sublist _ _ _)
  exact List.Nodup.sublist (hsub.map _) hcomb

/-- Witness for C4 at a concrete input, with the live provider
returning the same record twice. -/
theorem query_result_ids_nodup_witness :
    (([sampleRowA, sampleRowB] : List StoreRow).map (fun r => r.concert.id)).Nodup ∧
    ((getConcertsWithHistorical [sampleRowA, sampleRowB]
        (.ok [sampleTmConcert, sampleTmConcert]) (.ok []) 0
        ⟨none, none, none, none, none, true, true, none, none⟩).map (fun c => c.id)).Nodup :=
  ⟨by decide,
   query_result_ids_nodup [sampleRowA, sampleRowB]
     (.ok [sampleTmConcert, sampleTmConcert]) (.ok []) 0
     ⟨none, none, none, none, none, true, true, none, none⟩ (by decide)⟩

/-- Drop the two wall-clock fields of a result record.  Every other
field is kept. -/
def eraseTimes (c : ConcertWithRating) : ConcertWithRating :=
  { c with createdAt := 0, updatedAt := 0 }

theorem filter_map_eraseTimes (p : ConcertWithRating → Bool)
    (hp : ∀ c, p (eraseTimes c) = p c) (l : List ConcertWithRating) :
    (l.filter p).map eraseTimes = (l.map eraseTimes).filter p := by
  induction l with
  | nil => rfl
  | cons a t ih =>
    by_cases hpa : p a
    · simp [List.filter_cons, hpa, hp, ih]
    · simp [List.filter_cons, hpa, hp, ih]

theorem postFilter_map_eraseTimes (s g : Option String)
    (l1 l2 : List ConcertWithRating) (h : l1.map eraseTimes = l2.map eraseTimes) :
    (postFilter s g l1).map eraseTimes = (postFilter s g l2).map eraseTimes := by
  have hps : ∀ (ss : String) (c : ConcertWithRating),
      (containsCI (eraseTimes c).artist ss || containsCI (eraseTimes c).venue ss
        || containsCI (eraseTimes c).city ss)
      = (containsCI c.artist ss || containsCI c.venue ss || containsCI c.city ss) :=
    fun _ _ => rfl
  have hpg : ∀ (gg : String) (c : ConcertWithRating),
      (match (eraseTimes c).genre with
       | some cg => containsCI cg gg
       | none => false)
      = (match c.genre with
         | some cg => containsCI cg gg
         | none => false) :=
    fun _ _ => rfl
  unfold postFilter
  cases hs : truthy s with
  | none =>
    cases hg : truthy g with
    | none => exact h
    | some gg =>
      rw [filter_map_eraseTimes _ (hpg gg), filter_map_eraseTimes _ (hpg gg), h]
  | some ss =>
    cases hg : truthy g with
    | none =>
      rw [filter_map_eraseTimes _ (hps ss), filter_map_eraseTimes _ (hps ss), h]
    | some gg =>
      rw [filter_map_eraseTimes _ (hpg gg), filter_map_eraseTimes _ (hps ss),
        filter_map_eraseTimes _ (hpg gg), filter_map_eraseTimes _ (hps ss), h]

theorem windowSlice_map_eraseTimes (off lim : Option Nat) (l : List ConcertWithRating) :
    (windowSlice off lim l).map eraseTimes = windowSlice off lim (l.map eraseTimes) := by
  unfold windowSlice
  rw [List.map_take, List.map_drop]

/-- The merge loop treats the wall clock as payload only: its branch
decisions depend only on record ids, which `toExternal` sets
independently of the clock; so merging the same provider records
stamped with two different clock readings yields time-erased-equal
accumulators and the same seen-id set. -/
theorem mergeStep_map_eraseTimes (ext : List ProviderConcert) (n1 n2 : Nat)
    (p1 p2 : List ConcertWithRating × List String)
    (hacc : p1.1.map eraseTimes = p2.1.map eraseTimes) (hseen : p1.2 = p2.2) :
    (mergeStep p1 (ext.map (toExternal n1))).1.map eraseTimes
      = (mergeStep p2 (ext.map (toExternal n2))).1.map eraseTimes ∧
    (mergeStep p1 (ext.map (toExternal n1))).2 = (mergeStep p2 (ext.map (toExternal n2))).2 := by
  induction ext generalizing p1 p2 with
  | nil => exact ⟨hacc, hseen⟩
  | cons e rest ih =>
    have hstep1 : mergeStep p1 ((e :: rest).map (toExternal n1))
        = mergeStep (if p1.2.contains e.id then p1
                     else (p1.1 ++ [toExternal n1 e], e.id :: p1.2)) (rest.map (toExternal n1)) := rfl
    have hstep2 : mergeStep p2 ((e :: rest).map (toExternal n2))
        = mergeStep (if p2.2.contains e.id then p2
                     else (p2.1 ++ [toExternal n2 e], e.id :: p2.2)) (rest.map (toExternal n2)) := rfl
    rw [hstep1, hstep2, ← hseen]
    by_cases hc : p1.2.contains e.id
    · rw [if_pos hc, if_pos hc]
      exact ih p1 p2 hacc hseen
    · rw [if_neg hc, if_neg hc]
      apply ih
      · rw [List.map_append, List.map_append, hacc]
        rfl
      · rw [hseen]

theorem engineCombined_map_eraseTimes (db : List ConcertWithRating)
    (tmrecs sfmrecs : List ProviderConcert) (b1 b2 : Bool) (n1 n2 : Nat) :
    (engineCombined db (tmrecs.map (toExternal n1)) (sfmrecs.map (toExternal n1)) b1 b2).1.map eraseTimes
      = (engineCombined db (tmrecs.map (toExternal n2)) (sfmrecs.map (toExternal n2)) b1 b2).1.map eraseTimes := by
  unfold engineCombined
  by_cases h1 : b1 <;> by_cases h2 : b2 <;>
    simp only [h1, h2, if_true, if_false, ite_true, ite_false]
  · have step1 := mergeStep_map_eraseTimes tmrecs n1 n2
      (db, db.map (fun c => c.id)) (db, db.map (fun c => c.id)) rfl rfl
    exact (mergeStep_map_eraseTimes sfmrecs n1 n2 _ _ step1.1 step1.2).1
  · exact (mergeStep_map_eraseTimes tmrecs n1 n2
      (db, db.map (fun c => c.id)) (db, db.map (fun c => c.id)) rfl rfl).1
  · exact (mergeStep_map_eraseTimes sfmrecs n1 n2
      (db, db.map (fun c => c.id)) (db, db.map (fun c => c.id)) rfl rfl).1
  · rfl

/-! ## Claim C5 -/

/-- C5 (counterexample): two query calls with identical inputs and
unchanged backing data do NOT produce identical output: the
provider-sourced records carry `createdAt`/`updatedAt` stamped with
`new Date()` — the wall clock of the call — so runs at clock 0 and
clock 1 differ in those fields. -/
theorem query_output_depends_on_clock :
    getConcertsWithHistorical [] (.ok [sampleTmConcert]) (.ok []) 0
        ⟨none, none, none, none, none, true, false, none, none⟩
      ≠ getConcertsWithHistorical [] (.ok [sampleTmConcert]) (.ok []) 1
        ⟨none, none, none, none, none, true, false, none, none⟩ := by
  decide

/-- C5 (amended): two query calls with identical inputs and unchanged
backing data produce identical ordered output up to the
`createdAt`/`updatedAt` wall-clock stamps of provider-sourced records:
erasing those two fields, the outputs — every remaining field of every
record, and the ordering — are equal; equivalently, two runs observing
the same clock produce identical output. -/
theorem query_clock_erased_deterministic (store : List StoreRow)
    (tmResp sfmResp : Except UpstreamError (List ProviderConcert))
    (o : QueryOptions) (n1 n2 : Nat) :
    (getConcertsWithHistorical store tmResp sfmResp n1 o).map eraseTimes
      = (getConcertsWithHistorical store tmResp sfmResp n2 o).map eraseTimes := by
  show (windowSlice o.offset o.limit (postFilter o.search o.genre
      (engineCombined (getConcerts store ⟨o.search, o.genre, o.city, o.limit, o.offset⟩)
        ((searchTicketmasterEventsS tmResp).map (toExternal n1))
        ((searchSetlistFmEventsS sfmResp).map (toExternal n1))
        o.includeTicketmaster o.includeHistorical).1)).map eraseTimes
    = (windowSlice o.offset o.limit (postFilter o.search o.genre
      (engineCombined (getConcerts store ⟨o.search, o.genre, o.city, o.limit, o.offset⟩)
        ((searchTicketmasterEventsS tmResp).map (toExternal n2))
        ((searchSetlistFmEventsS sfmResp).map (toExternal n2))
        o.includeTicketmaster o.includeHistorical).1)).map eraseTimes
  rw [windowSlice_map_eraseTimes, windowSlice_map_eraseTimes]
  congr 1
  exact postFilter_map_eraseTimes o.search o.genre _ _
    (engineCombined_map_eraseTimes
      (getConcerts store ⟨o.search, o.genre, o.city, o.limit, o.offset⟩)
      (searchTicketmasterEventsS tmResp) (searchSetlistFmEventsS sfmResp)
      o.includeTicketmaster o.includeHistorical n1 n2)

/-- Every record of the merged list comes from the store page or from
one of the two (transformed) provider lists. -/
theorem engineCombined_mem (db tmext sfmext : List ConcertWithRating) (b1 b2 : Bool)
    (x : ConcertWithRating) (h : x ∈ (engineCombined db tmext sfmext b1 b2).1) :
    x ∈ db ∨ x ∈ tmext ∨ x ∈ sfmext := by
  unfold engineCombined at h
  by_cases h1 : b1 <;> by_cases h2 : b2 <;>
    simp only [h1, h2, if_true, if_false, ite_true, ite_false] at h
  · cases mergeStep_mem _ _ _ h with
    | inl hx =>
      cases mergeStep_mem _ _ _ hx with
      | inl hy => exact Or.inl hy
      | inr hy => exact Or.inr (Or.inl hy)
    | inr hx => exact Or.inr (Or.inr hx)
  · cases mergeStep_mem _ _ _ h with
    | inl hx => exact Or.inl hx
    | inr hx => exact Or.inr (Or.inl hx)
  · cases mergeStep_mem _ _ _ h with
    | inl hx => exact Or.inl hx
    | inr hx => exact Or.inr (Or.inr hx)
  · exact Or.inl h

/-! ## Claim C6 -/

/-- C6 (counterexample): a provider-sourced entry (here the only entry;
the store is empty, so no id is local-origin) does NOT have all
rating-aggregate fields absent: the engine sets `reviewCount: 0` on
provider records, so `reviewCount` is present (with value 0), not
absent. -/
theorem query_provider_entry_reviewCount_present :
    getConcerts [] ⟨none, none, none, none, none⟩ = [] ∧
    ¬ (∀ c ∈ getConcertsWithHistorical [] (.ok [sampleTmConcert]) (.ok []) 0
        ⟨none, none, none, none, none, true, false, none, none⟩, c.reviewCount = none) := by
  exact ⟨by decide, by decide⟩

/-- C6 (amended): every query result entry either comes from the store
page or is provider-sourced with the five per-category rating
aggregates (`averageRating`, `performanceRating`, `soundRating`,
`venueRating`, `valueRating`) absent and `reviewCount` present with
value 0 (first conjunct); every store-page entry is the aggregate
mapping of a store row (second conjunct); and that mapping gives a row
with at least one attached review all aggregate fields present, with
`reviewCount` the number of reviews (third conjunct). -/
theorem query_rating_aggregate_fields (store : List StoreRow)
    (tmResp sfmResp : Except UpstreamError (List ProviderConcert))
    (now : Nat) (o : QueryOptions) :
    (∀ c ∈ getConcertsWithHistorical store tmResp sfmResp now o,
        c ∈ getConcerts store ⟨o.search, o.genre, o.city, o.limit, o.offset⟩ ∨
        (c.averageRating = none ∧ c.performanceRating = none ∧ c.soundRating = none
          ∧ c.venueRating = none ∧ c.valueRating = none ∧ c.reviewCount = some 0))
    ∧ (∀ c ∈ getConcerts store ⟨o.search, o.genre, o.city, o.limit, o.offset⟩,
        ∃ r, r ∈ store ∧ c = toWithRating r)
    ∧ (∀ r : StoreRow, r.reviews ≠ [] →
        (toWithRating r).averageRating.isSome = true
        ∧ (toWithRating r).performanceRating.isSome = true
        ∧ (toWithRating r).soundRating.isSome = true
        ∧ (toWithRating r).venueRating.isSome = true
        ∧ (toWithRating r).valueRating.isSome = true
        ∧ (toWithRating r).reviewCount = some r.reviews.length) := by
  refine ⟨?_, ?_, ?_⟩
  · intro c hc
    have hsub : (getConcertsWithHistorical store tmResp sfmResp now o).Sublist
        ((engineCombined (getConcerts store ⟨o.search, o.genre, o.city, o.limit, o.offset⟩)
          ((searchTicketmasterEventsS tmResp).map (toExternal now))
          ((searchSetlistFmEventsS sfmResp).map (toExternal now))
          o.includeTicketmaster o.includeHistorical).1) :=
      (windowSlice_sublist _ _ _).trans (postFilter_sublist _ _ _)
    have hcomb := engineCombined_mem _ _ _ _ _ c (hsub.subset hc)
    cases hcomb with
    | inl hx => exact Or.inl hx
    | inr hx =>
      cases hx with
      | inl hx =>
        rw [List.mem_map] at hx
        obtain ⟨e, _, rfl⟩ := hx
        exact Or.inr ⟨rfl, rfl, rfl, rfl, rfl, rfl⟩
      | inr hx =>
        rw [List.mem_map] at hx
        obtain ⟨e, _, rfl⟩ := hx
        exact Or.inr ⟨rfl, rfl, rfl, rfl, rfl, rfl⟩
  · intro c hc
    obtain ⟨r, hr, _, rfl⟩ := getConcerts_mem hc
    exact ⟨r, hr, rfl⟩
  · intro r hr
    have hne : r.reviews.isEmpty = false := by
      cases hrev : r.reviews with
      | nil => exact absurd hrev hr
      | cons a t => rfl
    unfold toWithRating
    rw [hne]
    exact ⟨rfl, rfl, rfl, rfl, rfl, rfl⟩

/-- Witness for the amended C6 at a concrete input: `sampleRowB` has
one review, so all its aggregate fields are present. -/
theorem query_rating_aggregate_fields_witness :
    ((toWithRating sampleRowB).averageRating.isSome = true
      ∧ (toWithRating sampleRowB).performanceRating.isSome = true
      ∧ (toWithRating sampleRowB).soundRating.isSome = true
      ∧ (toWithRating sampleRowB).venueRating.isSome = true
      ∧ (toWithRating sampleRowB).valueRating.isSome = true
      ∧ (toWithRating sampleRowB).reviewCount = some sampleRowB.reviews.length) :=
  (query_rating_aggregate_fields [sampleRowB] (.ok []) (.ok []) 0
    ⟨none, none, none, none, none, false, false, none, none⟩).2.2 sampleRowB (by decide)

/-! ## Claim C7 -/

/-- C7 (counterexample): an HTTP 404 ("not found") response to the live
provider's `searchEvents` does NOT yield an empty result list:
`searchEvents` has no 404 special case (`if (!response.ok) throw`), so
it raises the same UpstreamError as any other non-2xx status. -/
theorem tmSearchEvents_404_raises :
    tmSearchEvents (α := Nat) "key" (.resp 404 none) = .error (.http 404) ∧
    tmSearchEvents (α := Nat) "key" (.resp 404 none) ≠ .ok [] := by
  refine ⟨rfl, ?_⟩
  intro h
  rw [show tmSearchEvents (α := Nat) "key" (.resp 404 none) = .error (.http 404) from rfl] at h
  exact Except.noConfusion h

/-- C7 (amended): for the live provider client, absent credentials make
`searchEvents` return an empty list without contacting the provider
(the fetch outcome is irrelevant: first conjunct); every non-2xx
status — 404 included — makes `searchEvents` raise `UpstreamError.http`
(second conjunct); the "not found means null, not an error" handling
lives in `getEvent`, which returns `null` on 404 (third conjunct). -/
theorem tmSearchEvents_error_handling (α : Type) (key : String)
    (fr : FetchResult (TMBody α)) (status : Nat) (body : Option (TMBody α))
    (b4 : Option α) (hk : key ≠ "") (hs : statusOk status = false) :
    tmSearchEvents (α := α) "" fr = .ok []
    ∧ tmSearchEvents key (.resp status body) = .error (.http status)
    ∧ tmGetEvent (β := α) (.resp 404 b4) = .ok none := by
  refine ⟨rfl, ?_, rfl⟩
  unfold tmSearchEvents
  rw [if_neg hk]
  simp [hs]

/-- Witness for the amended C7 at a concrete input. -/
theorem tmSearchEvents_error_handling_witness :
    ("key" : String) ≠ "" ∧ statusOk 500 = false ∧
    (tmSearchEvents (α := Nat) "" .fail = .ok []
      ∧ tmSearchEvents (α := Nat) "key" (.resp 500 none) = .error (.http 500)
      ∧ tmGetEvent (β := Nat) (.resp 404 none) = .ok none) :=
  ⟨by decide, by decide,
    tmSearchEvents_error_handling Nat "key" .fail 500 none none (by decide) (by decide)⟩

/-! ## Claim C9 -/

/-- C9: the historical archive client's search returns a plain list —
in the embedding it is a total function, its `catch` turning every
error of the `try` body into `[]` (first conjunct) — and that list is
empty on every failure outcome: missing credentials, network failure,
any non-2xx HTTP status (404 included), and an unparseable body
(remaining conjuncts).  A historical-provider failure therefore never
reaches the aggregation engine's error-handling path. -/
theorem sfmSearchSetlists_never_raises (key : String) (fr : FetchResult SfmBody) :
    (∀ e, sfmSearchSetlistsTry key fr = .error e → sfmSearchSetlists key fr = [])
    ∧ (key = "" → sfmSearchSetlists key fr = [])
    ∧ (fr = .fail → sfmSearchSetlists key fr = [])
    ∧ (∀ status body, fr = .resp status body → statusOk status = false →
        sfmSearchSetlists key fr = [])
    ∧ (∀ status, fr = .resp status none → sfmSearchSetlists key fr = []) := by
  refine ⟨?_, ?_, ?_, ?_, ?_⟩
  · intro e he
    unfold sfmSearchSetlists
    rw [he]
  · intro hk
    subst hk
    rfl
  · intro h
    subst h
    unfold sfmSearchSetlists sfmSearchSetlistsTry
    by_cases hk : key = "" <;> simp [hk]
  · intro status body h hs
    subst h
    unfold sfmSearchSetlists sfmSearchSetlistsTry
    by_cases hk : key = ""
    · simp [hk]
    · by_cases h4 : status = 404
      · subst h4
        simp [hk, statusOk]
      · simp [hk, hs, h4]
  · intro status h
    subst h
    unfold sfmSearchSetlists sfmSearchSetlistsTry
    by_cases hk : key = ""
    · simp [hk]
    · by_cases hok : statusOk status
      · simp [hk, hok]
      · by_cases h4 : status = 404
        · subst h4
          simp [hk, statusOk]
        · simp [hk, hok, h4]

/-- Witness for C9 at concrete inputs: a network failure and a 500
response both yield the empty list. -/
theorem sfmSearchSetlists_never_raises_witness :
    sfmSearchSetlists "key" .fail = [] ∧ sfmSearchSetlists "key" (.resp 500 none) = [] :=
  ⟨(sfmSearchSetlists_never_raises "key" .fail).2.2.1 rfl,
   (sfmSearchSetlists_never_raises "key" (.resp 500 none)).2.2.2.1 500 none rfl (by decide)⟩

/-! ## Claims C8 and C10: the date conversion -/

theorem strMk_append (a b : List Char) : String.mk a ++ String.mk b = String.mk (a ++ b) :=
  rfl

theorem splitDash_no_dash (l : List Char) (h : '-' ∉ l) : splitDash l = [l] := by
  induction l with
  | nil => rfl
  | cons c t ih =>
    have hc : ¬(c = '-') := fun he => h (he ▸ List.mem_cons_self c t)
    rw [splitDash, if_neg hc, ih (fun hm => h (List.mem_cons_of_mem c hm))]

theorem splitDash_append (a b : List Char) (h : '-' ∉ a) :
    splitDash (a ++ '-' :: b) = a :: splitDash b := by
  induction a with
  | nil => rw [List.nil_append, splitDash, if_pos rfl]
  | cons c t ih =>
    have hc : ¬(c = '-') := fun he => h (he ▸ List.mem_cons_self c t)
    rw [List.cons_append, splitDash, if_neg hc, ih (fun hm => h (List.mem_cons_of_mem c hm))]

/-- C8: the historical transform's date conversion turns the native
day-month-year date `"05-03-2024"` into the canonical `"2024-03-05"`
(first conjunct); on every input on which the conversion fails (the
`try` body throws, i.e. `convertDateFormatTry` is `none` — exactly the
strings with no `'-'`, where `month` is destructured as `undefined` and
`month.padStart` throws), the original string is passed through
unchanged (second conjunct); and the transform stores exactly this
conversion of the native `eventDate`, all functions involved being
total, so the request is never aborted (third conjunct). -/
theorem convertDateFormat_scenario_and_passthrough :
    convertDateFormat "05-03-2024" = "2024-03-05"
    ∧ (∀ s, convertDateFormatTry s = none → convertDateFormat s = s)
    ∧ (∀ sl : SetlistFmSetlist, (transformSetlist sl).date = convertDateFormat sl.eventDate) := by
  refine ⟨by decide, ?_, ?_⟩
  · intro s h
    unfold convertDateFormat
    rw [h]
    rfl
  · intro sl
    rfl

/-- Witness for C8: on a dash-free string the `try` body throws and the
input is passed through unchanged. -/
theorem convertDateFormat_passthrough_witness :
    convertDateFormatTry "Historical" = none ∧ convertDateFormat "Historical" = "Historical" :=
  ⟨by decide, convertDateFormat_scenario_and_passthrough.2.1 "Historical" (by decide)⟩

/-- C10: for every day-month-year input with dash-free components, the
conversion yields `year ++ "-" ++ month.padStart(2,'0') ++ "-" ++
day.padStart(2,'0')` (first conjunct); a single-character day or month
is left-padded with `'0'` to two digits (second and third conjuncts,
applying to whichever of the two components is single-digit), and a
two-character component is kept as is (fourth and fifth conjuncts) —
so every such conversion with one- or two-digit day and month lands in
strict `YYYY-MM-DD` shape, e.g. `"5-3-2024"` ↦ `"2024-03-05"` and the
mixed `"5-12-2024"` ↦ `"2024-12-05"`. -/
theorem convertDateFormat_pads_single_digits (d m y : List Char)
    (hdd : '-' ∉ d) (hmd : '-' ∉ m) (hyd : '-' ∉ y) :
    (convertDateFormat (String.mk (d ++ '-' :: (m ++ '-' :: y)))
      = String.mk y ++ "-" ++ padStart2 (String.mk m) ++ "-" ++ padStart2 (String.mk d))
    ∧ (d.length = 1 → padStart2 (String.mk d) = String.mk ('0' :: d))
    ∧ (m.length = 1 → padStart2 (String.mk m) = String.mk ('0' :: m))
    ∧ (d.length = 2 → padStart2 (String.mk d) = String.mk d)
    ∧ (m.length = 2 → padStart2 (String.mk m) = String.mk m) := by
  have hpad1 : ∀ l : List Char, l.length = 1 → padStart2 (String.mk l) = String.mk ('0' :: l) := by
    intro l hl
    unfold padStart2
    rw [show (String.mk l).length = 1 from hl]
    rfl
  have hpad2 : ∀ l : List Char, l.length = 2 → padStart2 (String.mk l) = String.mk l := by
    intro l hl
    unfold padStart2
    rw [show (String.mk l).length = 2 from hl]
    rfl
  refine ⟨?_, hpad1 d, hpad1 m, hpad2 d, hpad2 m⟩
  unfold convertDateFormat convertDateFormatTry
  rw [show (String.mk (d ++ '-' :: (m ++ '-' :: y))).toList = d ++ '-' :: (m ++ '-' :: y) from rfl]
  rw [splitDash_append d _ hdd, splitDash_append m _ hmd, splitDash_no_dash y hyd]
  rfl

/-- Witness for C10 at concrete single-digit and mixed-width inputs:
`"5-3-2024"` converts to `"2024-03-05"` and `"5-12-2024"` (single-digit
day, two-digit month) to `"2024-12-05"`. -/
theorem convertDateFormat_pads_single_digits_witness :
    convertDateFormat "5-3-2024" = "2024-03-05"
    ∧ convertDateFormat "5-12-2024" = "2024-12-05"
    ∧ padStart2 (String.mk ['5']) = String.mk ['0', '5'] := by
  refine ⟨?_, ?_, ?_⟩
  · exact (convertDateFormat_pads_single_digits ['5'] ['3'] ['2', '0', '2', '4']
      (by decide) (by decide) (by decide)).1
  · exact (convertDateFormat_pads_single_digits ['5'] ['1', '2'] ['2', '0', '2', '4']
      (by decide) (by decide) (by decide)).1
  · exact (convertDateFormat_pads_single_digits ['5'] ['3'] ['2', '0', '2', '4']
      (by decide) (by decide) (by decide)).2.1 rfl
